import Mathlib

/-!
Shallow embedding of the sibyl column-buffer / conversion / nullable-bind
layer (src/src/stmt/cols.rs, src/src/stmt/fromsql.rs, src/src/nvl.rs).

Machine integers are modelled as `Nat`/`Int` with explicit `% 2^32` where
u32 arithmetic can wrap.  Fallible operations return `Except Error`.
Payloads that are opaque native-driver data (OCINumber contents, OCIDate
contents, timestamp and interval descriptors, float register values) are
abstracted to `Int` tags: every claim below concerns which conversions are
admitted, what errors are raised, how buffers are sized and how descriptor
handles are swapped, never the arithmetic of those payloads.
-/

namespace Sibyl

/-- Error values: `Error::new(msg)` in the source constructs an interface
error carrying the message; server errors carry a code and message. -/
inductive Error where
  | interface (msg : String)
  | oracle (code : Int) (msg : String)
deriving DecidableEq

/-- Modelled from the spec: wire type codes of the native driver interface
(the `oci` module with the `SQLT_*` constants is outside `src/`); these are
the driver's standard integer codes (§6: "the database protocol's integer
tag for a column or bind's native representation"). -/
def SQLT_CHR : Nat := 1

/-- Modelled from the spec: wire code for NUMBER. -/
def SQLT_NUM : Nat := 2

/-- Modelled from the spec: wire code for LONG. -/
def SQLT_LNG : Nat := 8

/-- Modelled from the spec: wire code for DATE. -/
def SQLT_DAT : Nat := 12

/-- Modelled from the spec: wire code for RAW. -/
def SQLT_BIN : Nat := 23

/-- Modelled from the spec: wire code for LONG RAW. -/
def SQLT_LBI : Nat := 24

/-- Modelled from the spec: wire code for CHAR. -/
def SQLT_AFC : Nat := 96

/-- Modelled from the spec: wire code for BINARY_FLOAT. -/
def SQLT_IBFLOAT : Nat := 100

/-- Modelled from the spec: wire code for BINARY_DOUBLE. -/
def SQLT_IBDOUBLE : Nat := 101

/-- Modelled from the spec: wire code for ROWID descriptors. -/
def SQLT_RDD : Nat := 104

/-- Modelled from the spec: wire code for CLOB locators. -/
def SQLT_CLOB : Nat := 112

/-- Modelled from the spec: wire code for BLOB locators. -/
def SQLT_BLOB : Nat := 113

/-- Modelled from the spec: wire code for BFILE locators. -/
def SQLT_BFILE : Nat := 114

/-- Modelled from the spec: wire code for nested cursors (REF CURSOR). -/
def SQLT_RSET : Nat := 116

/-- Modelled from the spec: wire code for TIMESTAMP. -/
def SQLT_TIMESTAMP : Nat := 187

/-- Modelled from the spec: wire code for TIMESTAMP WITH TIME ZONE. -/
def SQLT_TIMESTAMP_TZ : Nat := 188

/-- Modelled from the spec: wire code for INTERVAL YEAR TO MONTH. -/
def SQLT_INTERVAL_YM : Nat := 189

/-- Modelled from the spec: wire code for INTERVAL DAY TO SECOND. -/
def SQLT_INTERVAL_DS : Nat := 190

/-- Modelled from the spec: wire code for TIMESTAMP WITH LOCAL TIME ZONE. -/
def SQLT_TIMESTAMP_LTZ : Nat := 232

/-- The NULL indicator value (`OCI_IND_NULL`), `-1` per the indicator
documentation on `Column::ind` in src/src/stmt/cols.rs. -/
def OCI_IND_NULL : Int := -1

/-- Column output buffer, one constructor per variant of
`enum ColumnBuffer` in src/src/stmt/cols.rs.  Payload models:
`Text` holds the decoded string (`varchar::to_string` reads the bytes back
out), `Binary` the raw bytes, descriptor variants (`CLOB`/`BLOB`/`BFile`/
`Rowid`) hold the locator's initialized flag (a freshly allocated
descriptor is uninitialized), `Cursor` holds an abstract statement-handle
tag where `0` is a freshly allocated empty handle, and the numeric /
date / timestamp / interval variants hold an abstract `Int` payload. -/
inductive ColumnBuffer where
  | Text (s : String)
  | CLOB (initialized : Bool)
  | Binary (bytes : List Nat)
  | BLOB (initialized : Bool)
  | BFile (initialized : Bool)
  | Number (n : Int)
  | Date (d : Int)
  | Timestamp (t : Int)
  | TimestampTZ (t : Int)
  | TimestampLTZ (t : Int)
  | IntervalYM (i : Int)
  | IntervalDS (i : Int)
  | Float (v : Int)
  | Double (v : Int)
  | Rowid (initialized : Bool)
  | Cursor (handle : Nat)
deriving DecidableEq

/-- Modelled from the spec: `number::to_string` (src/src/types/number.rs is
outside `src/`) renders an OCINumber as maximal-precision numeric text;
total on the abstract payload. -/
def numberToString (fmt : String) (n : Int) : Except Error String :=
  Except.ok (fmt ++ ":" ++ toString n)

/-- Modelled from the spec: `date::to_string` (src/src/types/date.rs is
outside `src/`) renders an OCIDate with the given ISO-like pattern. -/
def dateToString (fmt : String) (d : Int) : Except Error String :=
  Except.ok (fmt ++ ":" ++ toString d)

/-- Modelled from the spec: `timestamp::to_string` (src/src/types/timestamp.rs
is outside `src/`) renders a timestamp descriptor with the given pattern and
fractional precision. -/
def timestampToString (fmt : String) (frac : Nat) (t : Int) : Except Error String :=
  Except.ok (fmt ++ ":" ++ toString frac ++ ":" ++ toString t)

/-- Modelled from the spec: `interval::to_string` (src/src/types/interval.rs
is outside `src/`) renders an interval descriptor with the given leading and
fractional precisions. -/
def intervalToString (lead : Nat) (frac : Nat) (i : Int) : Except Error String :=
  Except.ok (toString lead ++ ":" ++ toString frac ++ ":" ++ toString i)

/-- Modelled from the spec: `RowID::to_string` (src/src/types/rowid.rs is
outside `src/`) renders the rowid descriptor as text; it performs no
initialization check and does not consume the descriptor. -/
def rowidToString (initialized : Bool) : Except Error String :=
  Except.ok (toString initialized)

/-- Modelled from the spec: Rust's float `to_string` decimal text on the
abstract float payload. -/
def floatValueToString (v : Int) : Except Error String :=
  Except.ok (toString v)

/-- Modelled from the spec: `Integer::from_number` (src/src/types/number.rs
is outside `src/`) reads an OCINumber into an integer target. -/
def intFromNumber (n : Int) : Except Error Int :=
  Except.ok n

/-- Modelled from the spec: `number::to_real` reads an OCINumber into a
float target (payloads abstracted). -/
def numberToReal (n : Int) : Except Error Int :=
  Except.ok n

/-- Modelled from the spec: `interval::to_number` converts an interval
magnitude through the numeric representation (§4.3). -/
def intervalToNumber (i : Int) : Except Error Int :=
  Except.ok i

namespace FromSql

/-- Decode into `String`, mirroring `impl FromSql for String`
(src/src/stmt/fromsql.rs lines 23-40) arm by arm: `Text`, `Number`, `Date`,
the three timestamp variants, the two interval variants, `Float`, `Double`
and `Rowid` are formatted; every other variant falls to the
`cannot convert` arm. -/
def string : ColumnBuffer → Except Error String
  | ColumnBuffer.Text s => Except.ok s
  | ColumnBuffer.Number n => numberToString "TM" n
  | ColumnBuffer.Date d => dateToString "YYYY-MM-DD HH24::MI:SS" d
  | ColumnBuffer.Timestamp t => timestampToString "YYYY-MM-DD HH24:MI:SSXFF" 3 t
  | ColumnBuffer.TimestampTZ t => timestampToString "YYYY-MM-DD HH24:MI:SSXFF TZH:TZM" 3 t
  | ColumnBuffer.TimestampLTZ t => timestampToString "YYYY-MM-DD HH24:MI:SSXFF TZH:TZM" 3 t
  | ColumnBuffer.IntervalYM i => intervalToString 4 3 i
  | ColumnBuffer.IntervalDS i => intervalToString 9 5 i
  | ColumnBuffer.Float v => floatValueToString v
  | ColumnBuffer.Double v => floatValueToString v
  | ColumnBuffer.Rowid r => rowidToString r
  | _ => Except.error (Error.interface "cannot convert")

/-- Decode into an integer target, mirroring
`impl FromSql for T : number::Integer` (fromsql.rs lines 71-78): only the
`Number` variant is accepted. -/
def integer : ColumnBuffer → Except Error Int
  | ColumnBuffer.Number n => intFromNumber n
  | _ => Except.error (Error.interface "cannot convert")

/-- Decode into `f32`, mirroring `impl FromSql for f32` (fromsql.rs lines
80-97): `Number`, `Float`, `Double` and both interval variants (through
`interval::to_number`) are accepted. -/
def f32 : ColumnBuffer → Except Error Int
  | ColumnBuffer.Number n => numberToReal n
  | ColumnBuffer.Float v => Except.ok v
  | ColumnBuffer.Double v => Except.ok v
  | ColumnBuffer.IntervalYM i => intervalToNumber i >>= numberToReal
  | ColumnBuffer.IntervalDS i => intervalToNumber i >>= numberToReal
  | _ => Except.error (Error.interface "cannot convert")

/-- Decode into `f64`, mirroring `impl FromSql for f64` (fromsql.rs lines
99-116); same accepted variants as `f32`. -/
def f64 : ColumnBuffer → Except Error Int
  | ColumnBuffer.Number n => numberToReal n
  | ColumnBuffer.Float v => Except.ok v
  | ColumnBuffer.Double v => Except.ok v
  | ColumnBuffer.IntervalYM i => intervalToNumber i >>= numberToReal
  | ColumnBuffer.IntervalDS i => intervalToNumber i >>= numberToReal
  | _ => Except.error (Error.interface "cannot convert")

/-- Decode into `Number`, mirroring `impl FromSql for number::Number`
(fromsql.rs lines 118-135); same accepted variants as `f32`/`f64`. -/
def number : ColumnBuffer → Except Error Int
  | ColumnBuffer.Number n => Except.ok n
  | ColumnBuffer.Float v => Except.ok v
  | ColumnBuffer.Double v => Except.ok v
  | ColumnBuffer.IntervalYM i => intervalToNumber i
  | ColumnBuffer.IntervalDS i => intervalToNumber i
  | _ => Except.error (Error.interface "cannot convert")

/-- Decode a nested cursor, mirroring `impl FromSql for Cursor` (fromsql.rs
lines 197-208): a fresh empty statement handle (`0`) is allocated, swapped
into the buffer, and the previous handle is returned; there is no
initialization check, so the conversion always succeeds on a `Cursor`
buffer.  Returns the taken handle together with the updated buffer. -/
def cursor : ColumnBuffer → Except Error (Nat × ColumnBuffer)
  | ColumnBuffer.Cursor h => Except.ok (h, ColumnBuffer.Cursor 0)
  | _ => Except.error (Error.interface "cannot convert")

/-- Decode a CLOB locator, mirroring the `impl_from_lob!` expansion for
`ColumnBuffer::CLOB` (fromsql.rs lines 210-233): if the locator is
initialized, a fresh (uninitialized) descriptor is swapped in and the old
one returned; otherwise the conversion fails with `already consumed`. -/
def clob : ColumnBuffer → Except Error (Bool × ColumnBuffer)
  | ColumnBuffer.CLOB l =>
      if l then Except.ok (l, ColumnBuffer.CLOB false)
      else Except.error (Error.interface "already consumed")
  | _ => Except.error (Error.interface "cannot convert")

/-- Decode a BLOB locator, the `impl_from_lob!` expansion for
`ColumnBuffer::BLOB`. -/
def blob : ColumnBuffer → Except Error (Bool × ColumnBuffer)
  | ColumnBuffer.BLOB l =>
      if l then Except.ok (l, ColumnBuffer.BLOB false)
      else Except.error (Error.interface "already consumed")
  | _ => Except.error (Error.interface "cannot convert")

/-- Decode a BFILE locator, the `impl_from_lob!` expansion for
`ColumnBuffer::BFile`. -/
def bfile : ColumnBuffer → Except Error (Bool × ColumnBuffer)
  | ColumnBuffer.BFile l =>
      if l then Except.ok (l, ColumnBuffer.BFile false)
      else Except.error (Error.interface "already consumed")
  | _ => Except.error (Error.interface "cannot convert")

/-- Decode a row identifier, mirroring `impl FromSql for RowID` (fromsql.rs
lines 235-250): if the descriptor is initialized, a fresh uninitialized one
is swapped in and the old one returned; otherwise `already consumed`. -/
def rowid : ColumnBuffer → Except Error (Bool × ColumnBuffer)
  | ColumnBuffer.Rowid r =>
      if r then Except.ok (r, ColumnBuffer.Rowid false)
      else Except.error (Error.interface "already consumed")
  | _ => Except.error (Error.interface "cannot convert")

end FromSql

/-- `true` when the conversion succeeded. -/
def exceptOk {α : Type} : Except Error α → Bool
  | Except.ok _ => true
  | Except.error _ => false

instance {ε α : Type} [DecidableEq ε] [DecidableEq α] : DecidableEq (Except ε α) :=
  fun x y =>
    match x, y with
    | Except.ok a, Except.ok b =>
        if h : a = b then isTrue (by rw [h])
        else isFalse (fun hc => h (Except.ok.injEq a b ▸ hc))
    | Except.ok a, Except.error f => isFalse (fun hc => Except.noConfusion hc)
    | Except.error e, Except.ok b => isFalse (fun hc => Except.noConfusion hc)
    | Except.error e, Except.error f =>
        if h : e = f then isTrue (by rw [h])
        else isFalse (fun hc => h (Except.error.injEq e f ▸ hc))

/-- `DEFAULT_LONG_BUFFER_SIZE` from src/src/stmt/cols.rs line 5. -/
def DEFAULT_LONG_BUFFER_SIZE : Nat := 32768

/-- Rust's `str::parse::<u32>`: an optional leading plus sign, then one or
more ASCII digits, value within the u32 range. -/
def parseU32 (s : String) : Option Nat :=
  let t := if s.startsWith "+" then s.drop 1 else s
  if t.isEmpty then none
  else if t.toList.all Char.isDigit then
    let n := t.toList.foldl (fun a c => a * 10 + (c.toNat - 48)) 0
    if n < 2 ^ 32 then some n else none
  else none

/-- The text expansion factor read in `Columns::new` (cols.rs line 354):
`std::env::var("ORACLE_UTF8_CONV_FACTOR").ok().and_then(parse).unwrap_or(2)`.
The argument is the environment lookup result (`none` when unset). -/
def utf8Factor (envVar : Option String) : Nat :=
  ((envVar.bind parseU32).getD 2)

/-- The per-column `data_size` computed in `Columns::new` (cols.rs lines
358-361): the max-long-fetch-size ceiling for LONG / LONG RAW, otherwise
the u16 reported size widened to u32 and multiplied by the expansion
factor (u32 arithmetic, hence the `% 2^32`). -/
def computeDataSize (dataType reportedSize maxLongFetchSize factor : Nat) : Nat :=
  if dataType = SQLT_LNG ∨ dataType = SQLT_LBI then maxLongFetchSize
  else reportedSize * factor % 2 ^ 32

/-- The buffer variant `ColumnBuffer::new` (cols.rs lines 223-249) selects
for a wire type code; the catch-all arm allocates a `Text` buffer. -/
inductive BufKind where
  | Text | CLOB | Binary | BLOB | BFile | Number | Date
  | Timestamp | TimestampTZ | TimestampLTZ | IntervalYM | IntervalDS
  | Float | Double | Rowid | Cursor
deriving DecidableEq

/-- The variant selection of `ColumnBuffer::new`, arm by arm; payload
construction is the driver's and is not modelled here. -/
def bufKindOfType (dataType : Nat) : BufKind :=
  if dataType = SQLT_DAT then BufKind.Date
  else if dataType = SQLT_TIMESTAMP then BufKind.Timestamp
  else if dataType = SQLT_TIMESTAMP_TZ then BufKind.TimestampTZ
  else if dataType = SQLT_TIMESTAMP_LTZ then BufKind.TimestampLTZ
  else if dataType = SQLT_INTERVAL_YM then BufKind.IntervalYM
  else if dataType = SQLT_INTERVAL_DS then BufKind.IntervalDS
  else if dataType = SQLT_NUM then BufKind.Number
  else if dataType = SQLT_IBFLOAT then BufKind.Float
  else if dataType = SQLT_IBDOUBLE then BufKind.Double
  else if dataType = SQLT_BIN ∨ dataType = SQLT_LBI then BufKind.Binary
  else if dataType = SQLT_CLOB then BufKind.CLOB
  else if dataType = SQLT_BLOB then BufKind.BLOB
  else if dataType = SQLT_BFILE then BufKind.BFile
  else if dataType = SQLT_RDD then BufKind.Rowid
  else if dataType = SQLT_RSET then BufKind.Cursor
  else BufKind.Text

/-- The capacity `ColumnBuffer::new` requests from the driver's allocator:
`varchar::new(data_size)` for `Text` and `raw::new(data_size)` for
`Binary`; every other variant is a fixed-size struct or descriptor
allocation that takes no size (`none`). -/
def allocRequestSize (k : BufKind) (dataSize : Nat) : Option Nat :=
  match k with
  | BufKind.Text => some dataSize
  | BufKind.Binary => some dataSize
  | _ => none

/-- The buffer-size component of `ColumnBuffer::get_output_buffer_def`
(cols.rs lines 264-284): `col_size + size_of::<u32>()` for `Text` and
`Binary`, fixed struct / pointer sizes elsewhere (`OCINumber` is 22 bytes,
`OCIDate` 7 bytes, pointers 8 bytes on the 64-bit targets this crate
supports), `0` for `Cursor`. -/
def outputBufferSize (k : BufKind) (colSize : Nat) : Nat :=
  match k with
  | BufKind.Text => colSize + 4
  | BufKind.Binary => colSize + 4
  | BufKind.Number => 22
  | BufKind.Date => 7
  | BufKind.Timestamp => 8
  | BufKind.TimestampTZ => 8
  | BufKind.TimestampLTZ => 8
  | BufKind.IntervalYM => 8
  | BufKind.IntervalDS => 8
  | BufKind.Float => 4
  | BufKind.Double => 8
  | BufKind.CLOB => 8
  | BufKind.BLOB => 8
  | BufKind.BFile => 8
  | BufKind.Rowid => 8
  | BufKind.Cursor => 0

/-- The buffer size `Columns::new` passes to `oci::define_by_pos` for one
column (cols.rs lines 358-371): the computed `data_size` fed through
`get_output_buffer_def`. -/
def columnBindSize (dataType reportedSize maxLongFetchSize : Nat)
    (envVar : Option String) : Nat :=
  outputBufferSize (bufKindOfType dataType)
    (computeDataSize dataType reportedSize maxLongFetchSize (utf8Factor envVar))

/-- The allocator capacity `Columns::new` requests for one column's buffer:
the computed `data_size` fed through the variant's allocation. -/
def columnAllocSize (dataType reportedSize maxLongFetchSize : Nat)
    (envVar : Option String) : Option Nat :=
  allocRequestSize (bufKindOfType dataType)
    (computeDataSize dataType reportedSize maxLongFetchSize (utf8Factor envVar))

/-! ## Bind parameters: the `ToSql` encode path and the `Nvl` wrapper -/

/-- Modelled from the spec: the actions `stmt::Params` (outside `src/`)
records for one bind call — `bind_null(pos, sql_null_type)` registers an
explicit SQL NULL of the given wire null type, a value bind registers the
encoded value at the position, and `mark_as_null(pos)` sets the position's
indicator to NULL while leaving the encoded buffer in place (the `Nvl`
documentation in src/src/nvl.rs: the wrapper "is bound to an SQL parameter
placeholder as NULL"). -/
inductive BindAction where
  | bindNull (pos : Nat) (sqlNullType : Nat)
  | bindValue (pos : Nat) (sqlType : Nat) (v : Int)
  | markAsNull (pos : Nat)
deriving DecidableEq

/-- A `ToSql` argument as the `Nvl` impls in src/src/nvl.rs see it: either a
scalar of some wire type (whose own `bind_to`, outside `src/`, binds one
slot and returns `pos + 1` per §4.4), or an `Nvl<T>` wrapper bound by
value, by shared reference, or by mutable reference, holding an optional
inner argument. -/
inductive SqlParam where
  | base (sqlType sqlNullType : Nat) (v : Int)
  | nvlByVal (sqlNullType : Nat) (inner : Option SqlParam)
  | nvlByRef (sqlNullType : Nat) (inner : Option SqlParam)
  | nvlByMut (sqlNullType : Nat) (inner : Option SqlParam)

/-- The encode path `bind_to(pos) -> next_pos` together with the recorded
bind actions.  The three `Nvl` arms mirror nvl.rs lines 98-122: by value
and by shared reference always call `params.bind_null` and return
`pos + 1`; by mutable reference a held value delegates to the inner
`bind_to` and then calls `params.mark_as_null(pos)`, while an empty wrapper
binds NULL and returns `pos + 1`.  The `base` arm is modelled from the
spec (§4.4): a scalar binds its value at `pos` and advances to `pos + 1`. -/
def bindTo : SqlParam → Nat → Nat × List BindAction
  | SqlParam.base ty _ v, pos => (pos + 1, [BindAction.bindValue pos ty v])
  | SqlParam.nvlByVal nt _, pos => (pos + 1, [BindAction.bindNull pos nt])
  | SqlParam.nvlByRef nt _, pos => (pos + 1, [BindAction.bindNull pos nt])
  | SqlParam.nvlByMut nt none, pos => (pos + 1, [BindAction.bindNull pos nt])
  | SqlParam.nvlByMut _ (some inner), pos =>
      let r := bindTo inner pos
      (r.1, r.2 ++ [BindAction.markAsNull pos])

/-- One bind position's state: the encoded buffer contents (abstracted) and
the NULL indicator. -/
structure BindSlot where
  value : Int
  isNull : Bool
deriving DecidableEq

/-- Modelled from the spec: the per-position bind state `stmt::Params`
(outside `src/`) keeps, as an association list from 1-based positions to
slots.  `is_null(pos)` reports the indicator, `none` when the position was
never bound. -/
structure Params where
  slots : List (Nat × BindSlot)
deriving DecidableEq

/-- Replace or add the slot at a position. -/
def setSlot (slots : List (Nat × BindSlot)) (pos : Nat) (s : BindSlot) :
    List (Nat × BindSlot) :=
  if slots.any (fun e => e.1 = pos) then
    slots.map (fun e => if e.1 = pos then (pos, s) else e)
  else
    slots ++ [(pos, s)]

/-- Apply one recorded bind action to the bind state. -/
def applyAction (slots : List (Nat × BindSlot)) : BindAction → List (Nat × BindSlot)
  | BindAction.bindNull pos _ => setSlot slots pos ⟨0, true⟩
  | BindAction.bindValue pos _ v => setSlot slots pos ⟨v, false⟩
  | BindAction.markAsNull pos =>
      slots.map (fun e => if e.1 = pos then (pos, ⟨e.2.value, true⟩) else e)

/-- The bind state resulting from a list of recorded actions. -/
def runActions (acts : List BindAction) : Params :=
  ⟨acts.foldl applyAction []⟩

/-- `Params::is_null(pos)`: the post-execute indicator at a position. -/
def Params.is_null (ps : Params) (pos : Nat) : Option Bool :=
  (ps.slots.lookup pos).map BindSlot.isNull

/-- Modelled from the spec: a statement execution that "returns the bound
value unchanged" (§8) — an INOUT round trip in which the server assigns
each bind position its own input value and indicator. -/
def identityStatement (ps : Params) : Params := ps

/-- Modelled from the spec: a statement execution in which the server sets
the given bind position to NULL. -/
def serverSetNull (pos : Nat) (ps : Params) : Params :=
  ⟨ps.slots.map (fun e => if e.1 = pos then (pos, ⟨e.2.value, true⟩) else e)⟩

/-- Modelled from the spec: a statement execution in which the server sets
the given bind position to the non-NULL value `w`. -/
def serverSetValue (pos : Nat) (w : Int) (ps : Params) : Params :=
  ⟨setSlot ps.slots pos ⟨w, false⟩⟩

/-- The nullable parameter wrapper `struct Nvl<T>(Option<T>)` from
src/src/nvl.rs. -/
structure Nvl (α : Type) where
  val : Option α
deriving DecidableEq

/-- `Nvl::new(value)` (nvl.rs line 21). -/
def Nvl.new {α : Type} (value : α) : Nvl α := ⟨some value⟩

/-- `Nvl::insert(value)` (nvl.rs line 76): holds the new value, dropping
any prior one. -/
def Nvl.insert {α : Type} (_n : Nvl α) (value : α) : Nvl α := ⟨some value⟩

/-- `Nvl::replace(value)` (nvl.rs line 93): holds the new value and
returns the prior one. -/
def Nvl.replace {α : Type} (n : Nvl α) (value : α) : Nvl α × Option α :=
  (⟨some value⟩, n.val)

/-- `update_from_bind` of `impl ToSql for &mut Nvl<T>` (nvl.rs lines
124-130): a NULL (or absent) post-execute indicator empties the wrapper;
otherwise a held value is updated in place through the inner type's own
`update_from_bind`, passed here as `updInner`. -/
def Nvl.update_from_bind {α : Type} (n : Nvl α) (updInner : α → Nat → Params → α)
    (pos : Nat) (ps : Params) : Nvl α :=
  if (ps.is_null pos).getD true then ⟨none⟩
  else
    match n.val with
    | some v => ⟨some (updInner v pos ps)⟩
    | none => n

/-- Modelled from the spec: the inner integer type's `update_from_bind`
(outside `src/`) reads the post-execute buffer back into the variable. -/
def intUpdateFromBind (v : Int) (pos : Nat) (ps : Params) : Int :=
  match ps.slots.lookup pos with
  | some s => s.value
  | none => v

/-- Modelled from the spec: the wire type an integer scalar binds with and
its null wire type (both outside `src/`; only their distinctness from each
other matters to the claims). -/
def INT_SQL_TYPE : Nat := 3

/-- Modelled from the spec: the null wire type `T::sql_null_type()` for an
integer inner type. -/
def INT_NULL_TYPE : Nat := 2

/-- The `SqlParam` view of an `Nvl<Int>` bound by mutable reference. -/
def nvlMutParam (n : Nvl Int) : SqlParam :=
  SqlParam.nvlByMut INT_NULL_TYPE
    (n.val.map (fun v => SqlParam.base INT_SQL_TYPE INT_NULL_TYPE v))

/-- End-to-end INOUT round trip of an `Nvl<Int>` bound by mutable reference
at position 1: encode-path bind, server execution, post-execute
read-back. -/
def roundTrip (statement : Params → Params) (n : Nvl Int) : Nvl Int :=
  let r := bindTo (nvlMutParam n) 1
  let ps := statement (runActions r.2)
  n.update_from_bind intUpdateFromBind 1 ps

/-! ## Column sets -/

/-- `struct Column` from src/src/stmt/cols.rs lines 289-304 (the `inf` and
`def` OCI handles are driver-opaque and omitted): the buffer, the fetched
length and the indicator. -/
structure Column where
  buf : ColumnBuffer
  len : Nat
  ind : Int
deriving DecidableEq

/-- `Column::is_null` (cols.rs line 317): the indicator equals
`OCI_IND_NULL`. -/
def Column.is_null (c : Column) : Bool := c.ind = OCI_IND_NULL

/-- `struct Columns` (cols.rs lines 331-336; the env / err handles are
driver-opaque and omitted): the name lookup and the column vector. -/
structure Columns where
  names : List (String × Nat)
  cols : List Column
deriving DecidableEq

/-- `Columns::col` (cols.rs line 389): `self.cols.get(index)`. -/
def Columns.col (cs : Columns) (index : Nat) : Option Column :=
  cs.cols.get? index

/-- `Columns::col_mut` (cols.rs line 394): `self.cols.get_mut(index)`; in
this pure embedding the same lookup. -/
def Columns.col_mut (cs : Columns) (index : Nat) : Option Column :=
  cs.cols.get? index

/-- `Columns::is_null` (cols.rs line 399):
`self.col(index).map_or(true, |col| col.is_null())`. -/
def Columns.is_null (cs : Columns) (index : Nat) : Bool :=
  match cs.col index with
  | some c => c.is_null
  | none => true

/-- `Columns::col_index` (cols.rs line 384): the name lookup. -/
def Columns.col_index (cs : Columns) (name : String) : Option Nat :=
  cs.names.lookup name

/-- Statement-side characterization (for the claims below) of the buffer
variants whose `String` decode succeeds. -/
def stringTargetAccepts : ColumnBuffer → Bool
  | ColumnBuffer.Text _ => true
  | ColumnBuffer.Number _ => true
  | ColumnBuffer.Date _ => true
  | ColumnBuffer.Timestamp _ => true
  | ColumnBuffer.TimestampTZ _ => true
  | ColumnBuffer.TimestampLTZ _ => true
  | ColumnBuffer.IntervalYM _ => true
  | ColumnBuffer.IntervalDS _ => true
  | ColumnBuffer.Float _ => true
  | ColumnBuffer.Double _ => true
  | ColumnBuffer.Rowid _ => true
  | _ => false

/-- Statement-side characterization of the buffer variants the `f32`,
`f64` and `Number` decodes accept. -/
def numericTargetAccepts : ColumnBuffer → Bool
  | ColumnBuffer.Number _ => true
  | ColumnBuffer.Float _ => true
  | ColumnBuffer.Double _ => true
  | ColumnBuffer.IntervalYM _ => true
  | ColumnBuffer.IntervalDS _ => true
  | _ => false

/-- Statement-side characterization of the buffer variants the integer
decode accepts. -/
def integerTargetAccepts : ColumnBuffer → Bool
  | ColumnBuffer.Number _ => true
  | _ => false

/-! ## Theorems -/

/-- Every `bind_to` call advances the position strictly (helper for the
encode-path claims). -/
theorem bindTo_fst_lt : ∀ (p : SqlParam) (pos : Nat), pos < (bindTo p pos).1
  | SqlParam.base _ _ _, _ => Nat.lt_succ_self _
  | SqlParam.nvlByVal _ _, _ => Nat.lt_succ_self _
  | SqlParam.nvlByRef _ _, _ => Nat.lt_succ_self _
  | SqlParam.nvlByMut _ none, _ => Nat.lt_succ_self _
  | SqlParam.nvlByMut _ (some inner), pos => bindTo_fst_lt inner pos

/-- Claim C1 counterexample: a nested-cursor column does NOT fail with
"already consumed" on a second conversion.  Converting a cursor buffer
swaps a fresh empty statement handle in and returns the old handle; a
second conversion on the resulting buffer succeeds again (returning the
empty replacement handle) instead of reporting "already consumed". -/
theorem c1_cursor_second_read_succeeds :
    FromSql.cursor (ColumnBuffer.Cursor 5) = Except.ok (5, ColumnBuffer.Cursor 0)
    ∧ FromSql.cursor (ColumnBuffer.Cursor 0) = Except.ok (0, ColumnBuffer.Cursor 0)
    ∧ FromSql.cursor (ColumnBuffer.Cursor 0)
        ≠ Except.error (Error.interface "already consumed") := by
  refine ⟨rfl, rfl, ?_⟩
  decide

/-- Claim C1 (amended): for large-object (CLOB, BLOB, BFILE) and
row-identifier columns, the first conversion of an initialized
descriptor-backed column succeeds, swapping the native handle out of the
`ColumnBuffer` for an uninitialized one, and a second conversion of the
same column fails with "already consumed"; for a nested-cursor column the
first conversion likewise swaps the handle out for a fresh empty one, but
every conversion succeeds — there is no consumption check and no
"already consumed" error on a second read. -/
theorem c1_descriptor_single_consumption :
    (FromSql.clob (ColumnBuffer.CLOB true) = Except.ok (true, ColumnBuffer.CLOB false)
      ∧ FromSql.clob (ColumnBuffer.CLOB false)
          = Except.error (Error.interface "already consumed"))
    ∧ (FromSql.blob (ColumnBuffer.BLOB true) = Except.ok (true, ColumnBuffer.BLOB false)
      ∧ FromSql.blob (ColumnBuffer.BLOB false)
          = Except.error (Error.interface "already consumed"))
    ∧ (FromSql.bfile (ColumnBuffer.BFile true) = Except.ok (true, ColumnBuffer.BFile false)
      ∧ FromSql.bfile (ColumnBuffer.BFile false)
          = Except.error (Error.interface "already consumed"))
    ∧ (FromSql.rowid (ColumnBuffer.Rowid true) = Except.ok (true, ColumnBuffer.Rowid false)
      ∧ FromSql.rowid (ColumnBuffer.Rowid false)
          = Except.error (Error.interface "already consumed"))
    ∧ (∀ h : Nat, FromSql.cursor (ColumnBuffer.Cursor h) = Except.ok (h, ColumnBuffer.Cursor 0)) := by
  refine ⟨⟨rfl, rfl⟩, ⟨rfl, rfl⟩, ⟨rfl, rfl⟩, ⟨rfl, rfl⟩, ?_⟩
  intro h
  rfl

/-- Claim C2 counterexample: binding `Nvl::new(42)` by mutable reference
and executing a statement that returns the bound value unchanged yields
the Empty state on read-back, not `42` — the wrapper marks its bind
position NULL, so the round trip returns NULL. -/
theorem c2_identity_round_trip_empties :
    (roundTrip identityStatement (Nvl.new 42)).val = none
    ∧ (roundTrip identityStatement (Nvl.new 42)).val ≠ some 42 := by
  refine ⟨rfl, ?_⟩
  decide

/-- Claim C2 (amended): binding `Nvl::new(v)` by mutable reference encodes
`v` into the bind buffer but marks the position NULL, so a statement that
returns the bound value unchanged returns NULL and read-back yields the
Empty state (never `v`); when the server instead assigns the position a
non-NULL value `w`, read-back yields `w`; when the server sets the
position NULL, read-back yields the Empty state. -/
theorem c2_nvl_round_trip :
    (∀ v : Int, (roundTrip identityStatement (Nvl.new v)).val = none)
    ∧ (∀ v w : Int, (roundTrip (serverSetValue 1 w) (Nvl.new v)).val = some w)
    ∧ (∀ v : Int, (roundTrip (serverSetNull 1) (Nvl.new v)).val = none) := by
  refine ⟨fun v => rfl, fun v w => rfl, fun v => rfl⟩

/-- Claim C3 counterexample: the `String` target rejects the raw-binary,
large-object and cursor column kinds with "cannot convert" — not every
`ColumnKind` is accepted. -/
theorem c3_string_rejects_some_kinds :
    FromSql.string (ColumnBuffer.Binary [])
        = Except.error (Error.interface "cannot convert")
    ∧ FromSql.string (ColumnBuffer.CLOB true)
        = Except.error (Error.interface "cannot convert")
    ∧ FromSql.string (ColumnBuffer.Cursor 1)
        = Except.error (Error.interface "cannot convert") :=
  ⟨rfl, rfl, rfl⟩

/-- Claim C3 (amended): the `String` target accepts exactly the text,
numeric, date, timestamp, interval, float and row-identifier kinds,
decoding each through that kind's canonical to-text formatter; the
raw-binary, CLOB, BLOB, BFILE and nested-cursor kinds are rejected with
"cannot convert". -/
theorem c3_string_acceptance : ∀ b : ColumnBuffer,
    (exceptOk (FromSql.string b) = stringTargetAccepts b)
    ∧ (stringTargetAccepts b = false →
        FromSql.string b = Except.error (Error.interface "cannot convert"))
    ∧ (∀ s, FromSql.string (ColumnBuffer.Text s) = Except.ok s)
    ∧ (∀ n, FromSql.string (ColumnBuffer.Number n) = numberToString "TM" n) := by
  intro b
  refine ⟨?_, ?_, fun s => rfl, fun n => rfl⟩
  · cases b <;> rfl
  · cases b <;> intro hb <;> first | rfl | cases hb

/-- Claim C3 witness: concrete instances of the amended acceptance
characterization. -/
theorem c3_string_acceptance_witness :
    exceptOk (FromSql.string (ColumnBuffer.Date 7)) = stringTargetAccepts (ColumnBuffer.Date 7)
    ∧ FromSql.string (ColumnBuffer.Binary [1])
        = Except.error (Error.interface "cannot convert") := by
  have h := c3_string_acceptance (ColumnBuffer.Binary [1])
  exact ⟨(c3_string_acceptance (ColumnBuffer.Date 7)).1, h.2.1 rfl⟩

/-- Claim C4 counterexample: an integer target type rejects `Float32`,
`Double` and interval buffers with "cannot convert" — integers accept only
the `Numeric` kind. -/
theorem c4_integer_rejects_float :
    FromSql.integer (ColumnBuffer.Float 1)
        = Except.error (Error.interface "cannot convert")
    ∧ FromSql.integer (ColumnBuffer.Double 1)
        = Except.error (Error.interface "cannot convert")
    ∧ FromSql.integer (ColumnBuffer.IntervalYM 1)
        = Except.error (Error.interface "cannot convert") :=
  ⟨rfl, rfl, rfl⟩

/-- Claim C4 (amended): the `f32`, `f64` and `Number` target types accept
exactly the `Numeric`, `Float32`, `Double`, `IntervalYearMonth` and
`IntervalDaySecond` kinds (intervals converted through the numeric
representation) and fail with "cannot convert" on every other kind;
integer target types accept only the `Numeric` kind and fail with
"cannot convert" on every other kind, including `Float32`, `Double` and
the intervals. -/
theorem c4_numeric_target_acceptance : ∀ b : ColumnBuffer,
    (exceptOk (FromSql.integer b) = integerTargetAccepts b)
    ∧ (integerTargetAccepts b = false →
        FromSql.integer b = Except.error (Error.interface "cannot convert"))
    ∧ (exceptOk (FromSql.f32 b) = numericTargetAccepts b)
    ∧ (numericTargetAccepts b = false →
        FromSql.f32 b = Except.error (Error.interface "cannot convert"))
    ∧ (exceptOk (FromSql.f64 b) = numericTargetAccepts b)
    ∧ (numericTargetAccepts b = false →
        FromSql.f64 b = Except.error (Error.interface "cannot convert"))
    ∧ (exceptOk (FromSql.number b) = numericTargetAccepts b)
    ∧ (numericTargetAccepts b = false →
        FromSql.number b = Except.error (Error.interface "cannot convert")) := by
  intro b
  refine ⟨?_, ?_, ?_, ?_, ?_, ?_, ?_, ?_⟩ <;>
    cases b <;> first | rfl | (intro hb; first | rfl | cases hb)

/-- Claim C4 witness: concrete instances of the amended acceptance
characterization. -/
theorem c4_numeric_target_acceptance_witness :
    exceptOk (FromSql.f32 (ColumnBuffer.IntervalDS 9))
      = numericTargetAccepts (ColumnBuffer.IntervalDS 9)
    ∧ FromSql.integer (ColumnBuffer.Text "x")
        = Except.error (Error.interface "cannot convert") := by
  have h := c4_numeric_target_acceptance (ColumnBuffer.Text "x")
  exact ⟨(c4_numeric_target_acceptance (ColumnBuffer.IntervalDS 9)).2.2.1, h.2.1 rfl⟩

/-- Claim C5: for character and raw-binary columns (wire codes
`SQLT_CHR`, `SQLT_AFC`, `SQLT_BIN`) with reported size `N`, the buffer
capacity passed to the driver's define call is
`N × expansion_factor + 4` (the u32 length prefix), the allocator is
asked for `N × expansion_factor` bytes, and the expansion factor is read
from the `ORACLE_UTF8_CONV_FACTOR` environment variable, defaulting to 2
when unset or unparsable. -/
theorem c5_text_raw_buffer_sizing :
    ∀ (ev : Option String) (dt reported maxLong : Nat),
    (dt = SQLT_CHR ∨ dt = SQLT_AFC ∨ dt = SQLT_BIN) →
    reported * utf8Factor ev < 2 ^ 32 →
    columnBindSize dt reported maxLong ev = reported * utf8Factor ev + 4
    ∧ columnAllocSize dt reported maxLong ev = some (reported * utf8Factor ev)
    ∧ utf8Factor none = 2
    ∧ (∀ s, parseU32 s = none → utf8Factor (some s) = 2) := by
  intro ev dt reported maxLong hdt hlt
  have hlt' : reported * utf8Factor ev < 4294967296 := by
    norm_num at hlt
    exact hlt
  have hmod : reported * utf8Factor ev % 2 ^ 32 = reported * utf8Factor ev :=
    Nat.mod_eq_of_lt hlt
  refine ⟨?_, ?_, rfl, ?_⟩
  · rcases hdt with h | h | h <;> subst h <;>
      simp [columnBindSize, computeDataSize, bufKindOfType, outputBufferSize,
        SQLT_CHR, SQLT_AFC, SQLT_BIN, SQLT_LNG, SQLT_LBI, SQLT_DAT,
        SQLT_TIMESTAMP, SQLT_TIMESTAMP_TZ, SQLT_TIMESTAMP_LTZ,
        SQLT_INTERVAL_YM, SQLT_INTERVAL_DS, SQLT_NUM, SQLT_IBFLOAT,
        SQLT_IBDOUBLE, SQLT_CLOB, SQLT_BLOB, SQLT_BFILE, SQLT_RDD,
        SQLT_RSET, hmod] <;> exact hlt'
  · rcases hdt with h | h | h <;> subst h <;>
      simp [columnAllocSize, computeDataSize, bufKindOfType, allocRequestSize,
        SQLT_CHR, SQLT_AFC, SQLT_BIN, SQLT_LNG, SQLT_LBI, SQLT_DAT,
        SQLT_TIMESTAMP, SQLT_TIMESTAMP_TZ, SQLT_TIMESTAMP_LTZ,
        SQLT_INTERVAL_YM, SQLT_INTERVAL_DS, SQLT_NUM, SQLT_IBFLOAT,
        SQLT_IBDOUBLE, SQLT_CLOB, SQLT_BLOB, SQLT_BFILE, SQLT_RDD,
        SQLT_RSET, hmod] <;> exact hlt'
  · intro s hs
    simp [utf8Factor, hs]

/-- Claim C5 witness: a VARCHAR2 column of reported size 100 with the
factor unset allocates 200 bytes and binds 204. -/
theorem c5_text_raw_buffer_sizing_witness :
    columnBindSize SQLT_CHR 100 32768 none = 100 * utf8Factor none + 4
    ∧ columnAllocSize SQLT_CHR 100 32768 none = some (100 * utf8Factor none) := by
  have h := c5_text_raw_buffer_sizing none SQLT_CHR 100 32768 (Or.inl rfl) (by decide)
  exact ⟨h.1, h.2.1⟩

/-- Claim C6: for LONG and LONG RAW columns (wire codes `SQLT_LNG`,
`SQLT_LBI`) the per-column data size is the configured
max-long-fetch-size ceiling whatever the reported size and whatever the
expansion-factor configuration: the allocator is asked for exactly the
ceiling and the define call receives the ceiling plus the u32 length
prefix; neither the reported size nor the factor appears in the result. -/
theorem c6_long_buffer_sizing :
    ∀ (ev : Option String) (reported maxLong : Nat),
    computeDataSize SQLT_LNG reported maxLong (utf8Factor ev) = maxLong
    ∧ computeDataSize SQLT_LBI reported maxLong (utf8Factor ev) = maxLong
    ∧ columnAllocSize SQLT_LNG reported maxLong ev = some maxLong
    ∧ columnAllocSize SQLT_LBI reported maxLong ev = some maxLong
    ∧ columnBindSize SQLT_LNG reported maxLong ev = maxLong + 4
    ∧ columnBindSize SQLT_LBI reported maxLong ev = maxLong + 4 :=
  fun _ _ _ => ⟨rfl, rfl, rfl, rfl, rfl, rfl⟩

/-- Claim C7: after execution, a NULL (or absent) post-execute indicator
at the wrapper's bind position empties the wrapper from any prior state,
and a non-NULL indicator updates a held value in place through the inner
type's read-back. -/
theorem c7_nvl_update_from_bind :
    ∀ {α : Type} (upd : α → Nat → Params → α) (pos : Nat) (ps : Params) (v : α),
    ((Params.is_null ps pos = some true ∨ Params.is_null ps pos = none) →
      ∀ n : Nvl α, (n.update_from_bind upd pos ps).val = none)
    ∧ (Params.is_null ps pos = some false →
        ((Nvl.new v).update_from_bind upd pos ps).val = some (upd v pos ps)) := by
  intro α upd pos ps v
  constructor
  · intro hnull n
    rcases hnull with h | h <;> simp [Nvl.update_from_bind, h]
  · intro hval
    simp [Nvl.update_from_bind, hval, Nvl.new]

/-- Claim C7 witness: a NULL-bound position empties `Nvl::new(5)`, a
position holding 7 updates it to 7. -/
theorem c7_nvl_update_from_bind_witness :
    ((Nvl.new (5 : Int)).update_from_bind intUpdateFromBind 1
        (runActions [BindAction.bindNull 1 INT_NULL_TYPE])).val = none
    ∧ ((Nvl.new (5 : Int)).update_from_bind intUpdateFromBind 1
        (runActions [BindAction.bindValue 1 INT_SQL_TYPE 7])).val = some 7 := by
  have h1 := c7_nvl_update_from_bind intUpdateFromBind 1
    (runActions [BindAction.bindNull 1 INT_NULL_TYPE]) (5 : Int)
  have h2 := c7_nvl_update_from_bind intUpdateFromBind 1
    (runActions [BindAction.bindValue 1 INT_SQL_TYPE 7]) (5 : Int)
  exact ⟨h1.1 (Or.inl rfl) (Nvl.new 5), (h2.2 rfl).trans (by decide)⟩

/-- Claim C8: every encode-path bind returns a next position strictly
greater than the starting position; the nullable wrapper bound by value,
by shared reference, or empty by mutable reference returns `pos + 1`, and
a held wrapper bound by mutable reference returns exactly the inner
value's advanced position, so successive arguments bind at strictly
ascending positions. -/
theorem c8_bind_positions_ascend :
    (∀ (p : SqlParam) (pos : Nat), pos < (bindTo p pos).1)
    ∧ (∀ (nt : Nat) (inner : Option SqlParam) (pos : Nat),
        (bindTo (SqlParam.nvlByVal nt inner) pos).1 = pos + 1)
    ∧ (∀ (nt : Nat) (inner : Option SqlParam) (pos : Nat),
        (bindTo (SqlParam.nvlByRef nt inner) pos).1 = pos + 1)
    ∧ (∀ (nt : Nat) (pos : Nat),
        (bindTo (SqlParam.nvlByMut nt none) pos).1 = pos + 1)
    ∧ (∀ (nt : Nat) (inner : SqlParam) (pos : Nat),
        (bindTo (SqlParam.nvlByMut nt (some inner)) pos).1 = (bindTo inner pos).1) :=
  ⟨bindTo_fst_lt, fun _ _ _ => rfl, fun _ _ _ => rfl, fun _ _ => rfl,
    fun _ _ _ => rfl⟩

/-- Claim C9: an `Nvl<T>` bound by value or by shared reference always
registers the placeholder as an explicit SQL NULL of `T`'s null wire
type — even when it holds a value — whereas binding through a mutable
reference with a held scalar encodes the contained value (and then marks
the position's indicator NULL). -/
theorem c9_nvl_value_binds_null :
    (∀ (nt : Nat) (inner : Option SqlParam) (pos : Nat),
      bindTo (SqlParam.nvlByVal nt inner) pos
        = (pos + 1, [BindAction.bindNull pos nt]))
    ∧ (∀ (nt : Nat) (inner : Option SqlParam) (pos : Nat),
      bindTo (SqlParam.nvlByRef nt inner) pos
        = (pos + 1, [BindAction.bindNull pos nt]))
    ∧ (∀ (ty nt : Nat) (v : Int) (pos : Nat),
      bindTo (SqlParam.nvlByMut nt (some (SqlParam.base ty nt v))) pos
        = (pos + 1, [BindAction.bindValue pos ty v, BindAction.markAsNull pos])) :=
  ⟨fun _ _ _ => rfl, fun _ _ _ => rfl, fun _ _ _ _ => rfl⟩

/-- Claim C10: column-set access is total over indices — at or beyond the
number of projected columns, both column accessors return `None` and the
null query reports `true`. -/
theorem c10_column_access_total :
    ∀ (cs : Columns) (index : Nat), cs.cols.length ≤ index →
    cs.col index = none ∧ cs.col_mut index = none ∧ cs.is_null index = true := by
  intro cs index hlen
  have hnone : cs.cols.get? index = none := List.get?_eq_none.mpr hlen
  have hnone' : cs.cols[index]? = none := by
    rw [← List.get?_eq_getElem?]
    exact hnone
  refine ⟨hnone, hnone, ?_⟩
  simp [Columns.is_null, Columns.col, hnone, hnone']

/-- Claim C10 witness: the empty column set at index 0. -/
theorem c10_column_access_total_witness :
    Columns.col ⟨[], []⟩ 0 = none ∧ Columns.col_mut ⟨[], []⟩ 0 = none
    ∧ Columns.is_null ⟨[], []⟩ 0 = true :=
  c10_column_access_total ⟨[], []⟩ 0 (Nat.le_refl 0)

end Sibyl
